import Mathlib

/-!
Verification of the pine-transfer-form-api submission pipeline.

The definitions below are a shallow embedding of the repository's quote and
transfer submission paths:

* `src/app/services/transfer.py` — duplicate detection (normalization,
  client-side filtering of stored transfer documents, most-recent selection)
  and the outbound transfer payload;
* `src/app/api/v1/endpoints/transfer.py` — the `create_transfer` control flow;
* `src/app/api/v1/endpoints/quote.py` — the `create_quote` control flow and
  the upstream-response parsing (success/http_code classification, nested
  error-message unwrapping, premium/excess extraction);
* `src/app/services/quote.py` — the outbound quote payload and the stored
  quote record;
* `src/app/utils/exceptions.py` — status codes carried by the structured
  errors;
* `src/app/services/email.py` — recipient parsing and the `send_email`
  failure handling.

External collaborators (the Appwrite store, the upstream HTTP transport, the
SMTP server, the Jinja template engine) are modelled as explicit inputs:
either a returned value or a raised exception (`Except.error`).  Python dicts
are modelled as association lists with `get`-with-default semantics, JSON
values by the `Json` inductive, Python floats by `ℚ`.

The source tree mixes incompatible revisions of some modules, and three of
those seams sit on the transfer path's cited lines; the embedding follows
the composed program, not the intended behaviour: `list_documents` returns a
`{"total", "documents"}` envelope whose keys the duplicate checkers iterate
(so detection never matches), the endpoint calls `store_transfer_request`
with required arguments missing (so the storage step always raises), and the
`AgentInfo` schema carries no `agent_email` (so the outbound transfer
payload is never built).
-/

namespace PineApi

/-- Python `s.replace(c, "")` for a single-character pattern: every occurrence
of the character is removed. -/
def pyRemoveChar (c : Char) (s : String) : String :=
  String.mk (s.data.filter (fun ch => ch ≠ c))

/-- Python `s.strip()`: leading and trailing whitespace removed. -/
def pyStrip (s : String) : String :=
  String.mk (((s.data.dropWhile Char.isWhitespace).reverse.dropWhile
    Char.isWhitespace).reverse)

/-- Normalization applied to id numbers by
`check_existing_transfer_by_id_number` (`src/app/services/transfer.py`):
`id_number.replace(" ", "").replace("-", "").strip()`.  Note: no plus signs
are removed on this path. -/
def normalizeId (s : String) : String :=
  pyStrip (pyRemoveChar '-' (pyRemoveChar ' ' s))

/-- Normalization applied to contact numbers by
`check_existing_transfer_by_contact_number` (`src/app/services/transfer.py`):
`contact_number.replace(" ", "").replace("-", "").replace("+", "").strip()`. -/
def normalizeContact (s : String) : String :=
  pyStrip (pyRemoveChar '+' (pyRemoveChar '-' (pyRemoveChar ' ' s)))

/-- Lexicographic (code-point) comparison of character lists, as Python
compares strings. -/
def charsLt : List Char → List Char → Bool
  | [], [] => false
  | [], _ :: _ => true
  | _ :: _, [] => false
  | x :: xs, y :: ys =>
    if x < y then true
    else if y < x then false
    else charsLt xs ys

/-- Python `a < b` on strings. -/
def pyStrLt (a b : String) : Bool :=
  charsLt a.data b.data

/-- A stored transfer document, as the Appwrite store hands it back: a Python
dict with string values (the fields written by `store_transfer_request` plus
the store's own `$id` / `$createdAt`). -/
def TransferDoc : Type := List (String × String)

instance : DecidableEq TransferDoc := by
  unfold TransferDoc
  infer_instance

/-- Python `doc.get(key, default)` on a string-valued dict. -/
def dget (d : TransferDoc) (key dflt : String) : String :=
  (List.lookup key d).getD dflt

/-- The `$createdAt` sort key used by the duplicate checkers. -/
def createdAtKey (d : TransferDoc) : String :=
  dget d "$createdAt" ""

/-- The running selection behind
`sorted(docs, key=lambda x: x.get("$createdAt", ""), reverse=True)[0]`:
the stable descending sort puts first the earliest listed document with the
maximal `$createdAt`, so the selection keeps the current best unless a
strictly more recent one appears. -/
def mostRecentFrom (best : TransferDoc) : List TransferDoc → TransferDoc
  | [] => best
  | d :: ds =>
    mostRecentFrom (if pyStrLt (createdAtKey best) (createdAtKey d) then d else best) ds

/-- Python `sorted(docs, key=..., reverse=True)[0]` for a possibly empty
list (`None` when empty). -/
def mostRecent : List TransferDoc → Option TransferDoc
  | [] => none
  | d :: ds => some (mostRecentFrom d ds)

/-- What `AppwriteService.list_documents` (`src/app/utils/appwrite.py`,
lines 180-195) hands back to the checkers: the Appwrite SDK's response
envelope — a dict with the keys `total` and `documents` — or, on an
`AppwriteException`, the one-element set `{f"error: {ae}"}`; any other
exception propagates to the caller.  It never returns the bare document
list. -/
inductive ListDocumentsResult : Type where
  | envelope (total : Nat) (documents : List TransferDoc) : ListDocumentsResult
  | errorSet (message : String) : ListDocumentsResult
  | raised (message : String) : ListDocumentsResult

/-- A Python value met while iterating the checkers' `transfers` value:
iterating the envelope dict yields its keys and iterating the error set its
element — strings either way; only a `pyDict` item could pass the checkers'
`isinstance(transfer, dict)` filter. -/
inductive ScannedItem : Type where
  | pyStr (s : String) : ScannedItem
  | pyDict (d : TransferDoc) : ScannedItem

/-- Python iteration of `db.list_documents(...) or []` inside the checkers:
the envelope dict and the error set are truthy, so `or []` keeps them, and
the `for transfer in transfers` loop walks their keys/elements; a raised
exception reaches the checker's `try`. -/
def iterTransfers : ListDocumentsResult → Except String (List ScannedItem)
  | .envelope _ _ => .ok [.pyStr "total", .pyStr "documents"]
  | .errorSet message => .ok [.pyStr message]
  | .raised message => .error message

/-- `check_existing_transfer_by_id_number` (`src/app/services/transfer.py`,
lines 28-94).  The list comprehension keeps an item only when
`isinstance(transfer, dict)` holds and the normalized `id_number` matches;
fed the envelope's keys, it keeps nothing, so the normalization and
most-recent logic below the `pyDict` arm is dead code of the program. -/
def check_existing_transfer_by_id_number (idNumber : String)
    (listed : ListDocumentsResult) : Option TransferDoc :=
  if idNumber = "" then none
  else
    match iterTransfers listed with
    | .error _ => none
    | .ok transfers =>
      let normalized := normalizeId idNumber
      let existing := transfers.filterMap (fun t =>
        match t with
        | .pyStr _ => none
        | .pyDict d =>
          if normalizeId (dget d "id_number" "") = normalized then some d
          else none)
      mostRecent existing

/-- `check_existing_transfer_by_contact_number`
(`src/app/services/transfer.py`, lines 97-164): same shape, same dead
filter. -/
def check_existing_transfer_by_contact_number (contactNumber : String)
    (listed : ListDocumentsResult) : Option TransferDoc :=
  if contactNumber = "" then none
  else
    match iterTransfers listed with
    | .error _ => none
    | .ok transfers =>
      let normalized := normalizeContact contactNumber
      let existing := transfers.filterMap (fun t =>
        match t with
        | .pyStr _ => none
        | .pyDict d =>
          if normalizeContact (dget d "contact_number" "") = normalized then some d
          else none)
      mostRecent existing

/-- Python truthiness of an optional string (`if id_number:`). -/
def truthyStr : Option String → Bool
  | none => false
  | some s => s ≠ ""

/-- `check_existing_transfer` (`src/app/services/transfer.py`, lines 167-195):
id number checked first, contact number only when the id check found
nothing.  Each checker lists the same store; the store is assumed to answer
both scans alike, so one `listed` value serves both. -/
def check_existing_transfer (idNumber contactNumber : Option String)
    (listed : ListDocumentsResult) : Option TransferDoc :=
  let byId :=
    if truthyStr idNumber then
      check_existing_transfer_by_id_number (idNumber.getD "") listed
    else none
  match byId with
  | some d => some d
  | none =>
    if truthyStr contactNumber then
      check_existing_transfer_by_contact_number (contactNumber.getD "") listed
    else none

/-- A JSON value, as parsed from an upstream response body.  Python floats and
ints are both `num` (over `ℚ`). -/
inductive Json : Type where
  | null : Json
  | bool (b : Bool) : Json
  | num (q : ℚ) : Json
  | str (s : String) : Json
  | arr (items : List Json) : Json
  | obj (fields : List (String × Json)) : Json

/-- A parsed JSON object (Python dict). -/
def JsonObj : Type := List (String × Json)

/-- Python `d[k]` presence: `d.get(k)` without a default. -/
def jget (d : JsonObj) (key : String) : Option Json :=
  List.lookup key d

/-- Python `d.get(k, default)`. -/
def jgetD (d : JsonObj) (key : String) (dflt : Json) : Json :=
  (jget d key).getD dflt

/-- Python truthiness of a JSON value (`not d.get("success", True)`). -/
def Json.truthy : Json → Bool
  | .null => false
  | .bool b => b
  | .num q => if q = 0 then false else true
  | .str s => s ≠ ""
  | .arr items => !items.isEmpty
  | .obj fields => !fields.isEmpty

/-- Python `v == 200` for a JSON value against the int literal 200 (numbers
compare by value; every other shape is unequal). -/
def isNum200 : Json → Bool
  | .num q => if q = 200 then true else false
  | _ => false

/-- The rejection test of `create_quote` (`src/app/api/v1/endpoints/quote.py`,
line 98): `not d.get("success", True) or d.get("http_code", 200) != 200`. -/
def isRejected (d : JsonObj) : Bool :=
  !(jgetD d "success" (.bool true)).truthy || !(isNum200 (jgetD d "http_code" (.num 200)))

/-- One level of the error-message unwrapping of `create_quote`: if the value
is a dict with a `message` key, that entry replaces it. -/
def unwrapOnce (e : Json) : Json :=
  match e with
  | .obj fields =>
    match jget fields "message" with
    | some m => m
    | none => e
  | _ => e

/-- The error message surfaced by `create_quote` on a rejected upstream
response (`src/app/api/v1/endpoints/quote.py`, lines 100-106):
`d.get("error", {})` unwrapped through at most two nested `message` keys
(the second unwrap happens inside the first one's branch). -/
def unwrapError (d : JsonObj) : Json :=
  match jgetD d "error" (.obj []) with
  | .obj fields =>
    (match jget fields "message" with
     | some m =>
       (match m with
        | .obj fields2 =>
          (match jget fields2 "message" with
           | some m2 => m2
           | none => m)
        | _ => m)
     | none => .obj fields)
  | e => e

/-- Merge "key absent" with "key present holding JSON null": both read back as
Python `None`. -/
def denull : Option Json → Option Json
  | some .null => none
  | x => x

/-- The `data`-array probe of `create_quote`
(`src/app/api/v1/endpoints/quote.py`, lines 125-129): the value of `key`
inside the first element of a top-level `data` array, when that element is a
dict. -/
def dataArrayField (d : JsonObj) (key : String) : Option Json :=
  match jget d "data" with
  | some (.arr (first :: _)) =>
    match first with
    | .obj fields => denull (jget fields key)
    | _ => none
  | _ => none

/-- Premium/excess resolution of `create_quote`
(`src/app/api/v1/endpoints/quote.py`, lines 117-143): first the `data` array's
first element, then (only when that produced `None`) the top level, and `0`
when both miss. -/
def extractField (d : JsonObj) (key : String) : Json :=
  let resolved :=
    match dataArrayField d key with
    | some v => some v
    | none => denull (jget d key)
  resolved.getD (.num 0)

/-- Python `float(v)` on a JSON value: numbers pass through, bools coerce to
0/1, anything else raises (`none`).  (Python would also parse a numeric
string; no settled claim exercises that corner, so a string is treated as the
raising case it usually is.) -/
def pyFloat : Json → Option ℚ
  | .num q => some q
  | .bool b => some (if b then 1 else 0)
  | _ => none

/-- The upstream quote id attached by `create_quote`
(`src/app/api/v1/endpoints/quote.py`, lines 122 and 157):
`d.get("id")`, kept only when truthy (`str(quote_id) if quote_id else None`).
The value whose `str` becomes `quoteId` is kept as JSON. -/
def quoteIdField (d : JsonObj) : Option Json :=
  match jget d "id" with
  | some j => if j.truthy then some j else none
  | none => none

/-- The outcome of the quote endpoint, with the HTTP status codes fixed by the
error classes in `src/app/utils/exceptions.py`:
`QuoteStorageError` 500, `QuoteAPIError` 502, `QuoteResponseError` 502. -/
inductive QuoteResult : Type where
  | storageError (statusCode : Nat) (message : String) : QuoteResult
  | apiError (statusCode : Nat) (message : Json) : QuoteResult
  | responseError (statusCode : Nat) (message : String) : QuoteResult
  | success (premium excess : ℚ) (quoteId : Option Json) : QuoteResult

/-- The response-parsing phase of `create_quote`
(`src/app/api/v1/endpoints/quote.py`, lines 96-158) applied to a decoded
upstream JSON dict. -/
def parseQuoteResponse (d : JsonObj) : QuoteResult :=
  if isRejected d then .apiError 502 (unwrapError d)
  else
    match pyFloat (extractField d "premium"), pyFloat (extractField d "excess") with
    | some p, some e => .success p e (quoteIdField d)
    | _, _ => .responseError 502 "float() conversion failed"

/-- Customer fields of a transfer submission
(`src/app/schemas/transfer.py`, as the endpoints use them). -/
structure CustomerInfo : Type where
  first_name : String
  last_name : String
  email : Option String
  contact_number : String
  id_number : Option String
  quote_id : Option String

/-- Agent fields of a transfer submission, exactly as the schema declares
them (`src/app/schemas/transfer.py`, lines 16-18): `agent_name` and
`branch_name`, both required strings.  There is no `agent_email` field, and
pydantic's default `extra` policy drops an inbound one, so every
`agent_info.agent_email` access in the services raises `AttributeError`. -/
structure AgentInfo : Type where
  agent_name : String
  branch_name : String

/-- The Python attribute access `agent_info.agent_email` on the schema's
`AgentInfo`: the attribute does not exist, so the access raises. -/
def agentEmailAttr (_agent : AgentInfo) : Except String String :=
  .error "'AgentInfo' object has no attribute 'agent_email'"

/-- The payload of `TransferDuplicateError`
(`src/app/utils/exceptions.py`, lines 96-123). -/
structure TransferDuplicateError : Type where
  statusCode : Nat
  submission_date : String
  transfer_id : String
  matched_field : String
  source : String
deriving DecidableEq

/-- The `TransferDuplicateError` constructor: the status code is fixed
at 409. -/
def mkTransferDuplicateError (submission_date transfer_id matched_field
    source : String) : TransferDuplicateError :=
  { statusCode := 409, submission_date := submission_date,
    transfer_id := transfer_id, matched_field := matched_field,
    source := source }

/-- The outcome of the transfer endpoint, with the status codes of
`src/app/utils/exceptions.py`: `TransferDuplicateError` 409,
`TransferStorageError` 500, `TransferAPIError` 502,
`TransferResponseError` 502. -/
inductive TransferResult : Type where
  | duplicate (e : TransferDuplicateError) : TransferResult
  | storageError (statusCode : Nat) (message : String) : TransferResult
  | apiError (statusCode : Nat) (message : Json) : TransferResult
  | responseError (statusCode : Nat) (message : String) : TransferResult
  | completed (uuid redirect_url : String) : TransferResult

/-- The `TypeError` raised by the endpoint's storage step, the call
`store_transfer_request(transfer_data=transfer)`
(`src/app/api/v1/endpoints/transfer.py`, line 89): the service it calls
(`src/app/services/transfer.py`, line 198) requires `collection_type` and
`document_id` as well, so Python raises at the call itself, before any write
reaches the store. -/
def storeCallTypeError : String :=
  "store_transfer_request() missing 2 required positional arguments: 'collection_type' and 'document_id'"

/-- `create_transfer` (`src/app/api/v1/endpoints/transfer.py`, lines 33-184):
duplicate check, then the storage step.  `listed` is the store's answer to
the duplicate scans.  The storage call raises `storeCallTypeError`
deterministically and the endpoint's `except` turns it into the 500
`TransferStorageError`, so the upstream call and response parsing of
lines 99-184 are unreachable in the program and are not modelled.  The
second component counts record-creation writes; it is 0 on both branches
(the duplicate branch aborts before storing, the storage branch raises
before any write). -/
def create_transfer (customer : CustomerInfo) (_agent : AgentInfo)
    (listed : ListDocumentsResult) : TransferResult × Nat :=
  match check_existing_transfer customer.id_number (some customer.contact_number)
      listed with
  | some existing =>
    (.duplicate (mkTransferDuplicateError
        (dget existing "created_at" "")
        (dget existing "id" "unknown")
        (dget existing "matched_field" "ID number")
        (dget existing "source" "database")), 0)
  | none => (.storageError 500 storeCallTypeError, 0)

/-- `send_quote_request`'s outbound body (`src/app/services/quote.py`,
lines 144-158): the caller's request with `source` forced to the literal
`"SureStrat"` (both branches of the code's `if` assign the same literal). -/
structure QuoteRequest : Type where
  source : String
  externalReferenceId : String
  agentEmail : Option String
  agentBranch : Option String
  vehicles : List String

/-- The JSON body `send_quote_request` posts upstream. -/
structure QuotePayload : Type where
  source : String
  externalReferenceId : String
  agentEmail : Option String
  agentBranch : Option String
  vehicles : List String

/-- The payload construction of `send_quote_request`
(`src/app/services/quote.py`, lines 151-158). -/
def send_quote_payload (q : QuoteRequest) : QuotePayload :=
  { source := if q.source ≠ "" then "SureStrat" else "SureStrat",
    externalReferenceId := q.externalReferenceId,
    agentEmail := q.agentEmail,
    agentBranch := q.agentBranch,
    vehicles := q.vehicles }

/-- The record `store_quote_request` (`src/app/services/quote.py`,
lines 36-67) persists: the caller's `source` and `externalReferenceId`
unchanged, plus the serialized vehicle list (serialization elided — the
`source` field is the point under test). -/
structure StoredQuoteRecord : Type where
  source : String
  externalReferenceId : String
  vehicles : List String

/-- The data dict `store_quote_request` hands to `create_document`. -/
def store_quote_data (q : QuoteRequest) : StoredQuoteRecord :=
  { source := q.source,
    externalReferenceId := q.externalReferenceId,
    vehicles := q.vehicles }

/-- The flat JSON body `send_transfer_request` posts upstream
(`src/app/services/transfer.py`, lines 254-266). -/
structure TransferPayload : Type where
  source : String
  agentEmail : String
  agentBranch : String
  first_name : String
  last_name : String
  email : String
  id_number : String
  quote_id : String
  contact_number : String

/-- The dict literal of `src/app/services/transfer.py`, lines 256-266, as it
would evaluate if the `agent_email` attribute access succeeded: `source` is
the hardcoded literal, optional customer fields fall back to `""` (Python
`x or ""`, the identity on the required `branch_name` string). -/
def send_transfer_payload (customer : CustomerInfo)
    (agentEmail branchName : String) : TransferPayload :=
  { source := "SureStrat",
    agentEmail := agentEmail,
    agentBranch := branchName,
    first_name := customer.first_name,
    last_name := customer.last_name,
    email := customer.email.getD "",
    id_number := customer.id_number.getD "",
    quote_id := customer.quote_id.getD "",
    contact_number := customer.contact_number }

/-- What `send_transfer_request` produces: either the `{"error": msg}` dict
its `except` handler returns, or a payload posted upstream. -/
inductive TransferSendOutcome : Type where
  | errorDict (message : String) : TransferSendOutcome
  | posted (payload : TransferPayload) : TransferSendOutcome

/-- `send_transfer_request` (`src/app/services/transfer.py`, lines 247-320):
the payload construction reads `transfer_data.agent_info.agent_email`
(line 258), which raises on the schema's `AgentInfo`; the outer
`except Exception` turns that into the `{"error": ...}` dict, so the
`posted` arm is dead code of the program. -/
def send_transfer_request (customer : CustomerInfo) (agent : AgentInfo) :
    TransferSendOutcome :=
  match agentEmailAttr agent with
  | .error e => .errorDict ("Exception in send_transfer_request: " ++ e)
  | .ok agentEmail =>
    .posted (send_transfer_payload customer agentEmail agent.branch_name)

/-- The fallible collaborators of `EmailService.send_email`
(`src/app/services/email.py`): template rendering, the SMTP connection,
login and send.  `Except.error` models a raised exception. -/
structure EmailEnv : Type where
  smtp_server : Option String
  smtp_username : Option String
  smtp_password : Option String
  render : Except String String
  connect : Except String Unit
  login : Except String Unit
  send : Except String Unit

/-- `EmailService.render_template` (`src/app/services/email.py`,
lines 64-93): a rendering exception is caught and replaced by a fallback
HTML notice (its exact text is immaterial; what matters is that a string is
returned, never an exception). -/
def render_template (env : EmailEnv) (templateName : String) : String :=
  match env.render with
  | .ok html => html
  | .error e =>
    "Email Notification: an error occurred while rendering the email template "
      ++ templateName ++ ": " ++ e

/-- A recipients argument: a list of addresses or a (possibly
comma-separated) string; `none` is Python `None`. -/
inductive Recipients : Type where
  | list (items : List String) : Recipients
  | str (value : String) : Recipients

/-- `EmailService._parse_recipients` (`src/app/services/email.py`,
lines 95-119): lists are trimmed and cleaned of empties, strings are split on
commas when one is present.  No deduplication happens anywhere in it. -/
def parse_recipients : Option Recipients → List String
  | none => []
  | some (.list items) =>
    (items.filter (fun e => e ≠ "" && pyStrip e ≠ "")).map pyStrip
  | some (.str s) =>
    if s = "" then []
    else if s.data.contains ',' then
      ((s.data.splitOn ',').map (fun cs => pyStrip (String.mk cs))).filter
        (fun e => e ≠ "")
    else if pyStrip s = "" then [] else [pyStrip s]

/-- The list handed to `server.sendmail` (`src/app/services/email.py`,
line 227): `to_list + cc_list + bcc_list`, a plain concatenation. -/
def allRecipients (recipients cc bcc : Option Recipients) : List String :=
  parse_recipients recipients ++ parse_recipients cc ++ parse_recipients bcc

/-- The body of `EmailService.send_email` (`src/app/services/email.py`,
lines 206-278) before its outermost `try/except`: `.error` is an exception
that reaches that handler.  Missing primary recipients, missing SMTP
configuration and a failed login return `False` directly (their handlers are
inside); connection and send exceptions escape to the outer handler. -/
def sendEmailBody (env : EmailEnv) (recipients cc bcc : Option Recipients)
    (templateName : String) : Except String Bool :=
  let _html := render_template env templateName
  let toList := parse_recipients recipients
  let _all := allRecipients recipients cc bcc
  if toList.isEmpty then .ok false
  else if truthyStr env.smtp_server = false then .ok false
  else
    match env.connect with
      | .error e => .error e
      | .ok _ =>
        match env.smtp_username, env.smtp_password with
        | some _, some _ =>
          (match env.login with
           | .error _ => .ok false
           | .ok _ =>
             match env.send with
             | .error e => .error e
             | .ok _ => .ok true)
        | _, _ => .ok false

/-- `EmailService.send_email`: the outermost `try/except Exception` turns any
escaped exception into `False`, so the caller always gets a `Bool` back. -/
def send_email (env : EmailEnv) (recipients cc bcc : Option Recipients)
    (templateName : String) : Bool :=
  match sendEmailBody env recipients cc bcc templateName with
  | .ok b => b
  | .error _ => false

/-! Definitions written from the spec's words, kept clearly apart from the
embedding of the source: they exist only to be compared with the code's
behaviour. -/

/-- The premium/excess lookup priority exactly as claim C3 words it — top
level first, then a `data` object, then the first element of a `data` array,
defaulting to 0.  Compare with the code's `extractField`, which probes the
`data` array first and never looks inside a `data` object. -/
def specExtractField (d : JsonObj) (key : String) : Json :=
  match denull (jget d key) with
  | some v => v
  | none =>
    match
      (match jget d "data" with
       | some (.obj fields) => denull (jget fields key)
       | _ => none) with
    | some v => v
    | none => (dataArrayField d key).getD (.num 0)

/-! Concrete fixtures used by the counterexamples and witnesses. -/

/-- A customer submitting a transfer whose contact number (but not id number)
matches a stored record. -/
def dupCustomer : CustomerInfo :=
  { first_name := "John", last_name := "Smith", email := none,
    contact_number := "082-000-0000", id_number := none, quote_id := none }

/-- An agent as the schema validates it. -/
def dupAgent : AgentInfo :=
  { agent_name := "Agent A", branch_name := "JHB" }

/-- A transfer document as an earlier revision of the service stored it
(the fields of `store_transfer_request`'s data dict plus the Appwrite `$id`
and `$createdAt` system keys), with document id `"abc123"` and a contact
number matching `dupCustomer`'s after normalization. -/
def priorDoc : TransferDoc :=
  [("$id", "abc123"), ("$createdAt", "2025-01-01T00:00:00.000+00:00"),
   ("first_name", "Jane"), ("last_name", "Doe"), ("email", ""),
   ("contact_number", "082 000 0000"), ("id_number", "1"),
   ("quote_id", ""), ("agent_email", "agent@surestrat.co.za"),
   ("agent_name", "agent@surestrat.co.za"), ("branch_name", "JHB"),
   ("created_at", "2025-01-01T02:00:00"),
   ("updated_at", "2025-01-01T02:00:00")]

/-- A stored transfer document whose id number is the undashed form of the
spec's normalization example. -/
def doc940 : TransferDoc :=
  [("$id", "t2"), ("$createdAt", "2025-03-03T00:00:00.000+00:00"),
   ("first_name", "Sam"), ("last_name", "Dlamini"), ("email", ""),
   ("contact_number", "0840000000"), ("id_number", "9404054800086"),
   ("quote_id", ""), ("created_at", "2025-03-03T02:00:00"),
   ("updated_at", "2025-03-03T02:00:00")]

/-- An upstream quote response carrying premium/excess both at top level and
inside the `data` array. -/
def quoteBothLocations : JsonObj :=
  [("success", .bool true), ("premium", .num 1), ("excess", .num 4),
   ("data", .arr [.obj [("premium", .num 2), ("excess", .num 3)]])]

/-- An upstream quote response carrying premium only inside a `data`
object. -/
def quoteDataObject : JsonObj :=
  [("success", .bool true), ("data", .obj [("premium", .num 7)])]

/-- The spec's worked extraction example:
`data: [{"premium": 1240.46, "excess": 6200}], "id": "abc123"`. -/
def quoteSpecExample : JsonObj :=
  [("success", .bool true), ("id", .str "abc123"),
   ("data", .arr [.obj [("premium", .num 1240.46), ("excess", .num 6200)]])]

/-- The spec's worked rejection example:
`{"success": false, "error": {"message": {"message": "bad vehicle"}}}`. -/
def quoteRejected : JsonObj :=
  [("success", .bool false),
   ("error", .obj [("message", .obj [("message", .str "bad vehicle")])])]

/-- An upstream quote response carrying a negative premium. -/
def quoteNegative : JsonObj :=
  [("premium", .num (-1))]

/-- An email environment where only template rendering fails. -/
def renderFailEnv : EmailEnv :=
  { smtp_server := some "smtp.gmail.com", smtp_username := some "user",
    smtp_password := some "pass", render := .error "TemplateNotFound",
    connect := .ok (), login := .ok (), send := .ok () }

/-- An email environment where the SMTP send raises. -/
def sendFailEnv : EmailEnv :=
  { smtp_server := some "smtp.gmail.com", smtp_username := some "user",
    smtp_password := some "pass", render := .ok "<p>ok</p>",
    connect := .ok (), login := .ok (), send := .error "connection reset" }

/-- A quote request whose caller-supplied source is not the upstream
literal. -/
def sampleQuoteRequest : QuoteRequest :=
  { source := "SureStrat-Web", externalReferenceId := "ref-001",
    agentEmail := some "agent@surestrat.co.za", agentBranch := some "JHB",
    vehicles := ["vehicle-1"] }

/-! Order facts about the lexicographic comparison, needed to reason about
the most-recent selection. -/

theorem charsLt_irrefl : ∀ l : List Char, charsLt l l = false := by
  intro l
  induction l with
  | nil => rfl
  | cons x xs ih => simp [charsLt, lt_irrefl, ih]

theorem charsLt_trans :
    ∀ a b c : List Char, charsLt a b = true → charsLt b c = true →
      charsLt a c = true := by
  intro a
  induction a with
  | nil =>
    intro b c h1 h2
    cases b with
    | nil => simp [charsLt] at h1
    | cons y ys =>
      cases c with
      | nil => simp [charsLt] at h2
      | cons z zs => rfl
  | cons x xs ih =>
    intro b c h1 h2
    cases b with
    | nil => simp [charsLt] at h1
    | cons y ys =>
      cases c with
      | nil => simp [charsLt] at h2
      | cons z zs =>
        simp only [charsLt] at h1 h2 ⊢
        by_cases hxy : x < y
        · by_cases hyz : y < z
          · simp [lt_trans hxy hyz]
          · by_cases hzy : z < y
            · simp [hyz, hzy] at h2
            · have hyzeq : y = z := le_antisymm (not_lt.mp hzy) (not_lt.mp hyz)
              subst hyzeq
              simp [hxy]
        · by_cases hyx : y < x
          · simp [hxy, hyx] at h1
          · have hxyeq : x = y := le_antisymm (not_lt.mp hyx) (not_lt.mp hxy)
            subst hxyeq
            simp only [lt_irrefl, if_false] at h1 h2 ⊢
            by_cases hxz : x < z
            · simp [hxz]
            · by_cases hzx : z < x
              · simp [hxz, hzx] at h2
              · simp only [hxz, hzx, if_false] at h2 ⊢
                exact ih ys zs h1 h2

theorem charsLt_connex :
    ∀ a b : List Char, charsLt a b = false → charsLt b a = false → a = b := by
  intro a
  induction a with
  | nil =>
    intro b h1 _
    cases b with
    | nil => rfl
    | cons y ys => simp [charsLt] at h1
  | cons x xs ih =>
    intro b h1 h2
    cases b with
    | nil => simp [charsLt] at h2
    | cons y ys =>
      simp only [charsLt] at h1 h2
      by_cases hxy : x < y
      · simp [hxy] at h1
      · by_cases hyx : y < x
        · simp [hxy, hyx] at h2
        · have hxyeq : x = y := le_antisymm (not_lt.mp hyx) (not_lt.mp hxy)
          subst hxyeq
          simp only [lt_irrefl, if_false] at h1 h2
          rw [ih ys h1 h2]

theorem pyStrLt_irrefl (s : String) : pyStrLt s s = false :=
  charsLt_irrefl s.data

theorem pyStrLt_trans (a b c : String) (h1 : pyStrLt a b = true)
    (h2 : pyStrLt b c = true) : pyStrLt a c = true :=
  charsLt_trans a.data b.data c.data h1 h2

theorem pyStrLt_connex (a b : String) (h1 : pyStrLt a b = false)
    (h2 : pyStrLt b a = false) : a = b := by
  have hd : a.data = b.data := charsLt_connex a.data b.data h1 h2
  exact congrArg String.mk hd

/-- The most-recent selection never answers something strictly older than the
starting document or than any scanned document, and the answer is one of
them. -/
theorem mostRecentFrom_spec :
    ∀ (ds : List TransferDoc) (b : TransferDoc),
      (mostRecentFrom b ds = b ∨ mostRecentFrom b ds ∈ ds) ∧
      pyStrLt (createdAtKey (mostRecentFrom b ds)) (createdAtKey b) = false ∧
      ∀ x ∈ ds,
        pyStrLt (createdAtKey (mostRecentFrom b ds)) (createdAtKey x) = false := by
  intro ds
  induction ds with
  | nil =>
    intro b
    refine ⟨Or.inl rfl, pyStrLt_irrefl _, ?_⟩
    intro x hx
    exact absurd hx (List.not_mem_nil x)
  | cons d ds ih =>
    intro b
    by_cases hb : pyStrLt (createdAtKey b) (createdAtKey d) = true
    · have hstep : mostRecentFrom b (d :: ds) = mostRecentFrom d ds := by
        simp [mostRecentFrom, hb]
      obtain ⟨hmem, hbase, hall⟩ := ih d
      rw [hstep]
      refine ⟨?_, ?_, ?_⟩
      · rcases hmem with h | h
        · exact Or.inr (by rw [h]; exact List.mem_cons_self d ds)
        · exact Or.inr (List.mem_cons_of_mem d h)
      · -- not older than b: if it were, transitivity with b < d contradicts hbase
        cases hc : pyStrLt (createdAtKey (mostRecentFrom d ds)) (createdAtKey b) with
        | false => rfl
        | true =>
          have := pyStrLt_trans _ _ _ hc hb
          rw [this] at hbase
          exact absurd hbase (by simp)
      · intro x hx
        rcases List.mem_cons.mp hx with h | h
        · rw [h]; exact hbase
        · exact hall x h
    · have hb' : pyStrLt (createdAtKey b) (createdAtKey d) = false := by
        cases h : pyStrLt (createdAtKey b) (createdAtKey d) with
        | false => rfl
        | true => exact absurd h hb
      have hstep : mostRecentFrom b (d :: ds) = mostRecentFrom b ds := by
        simp [mostRecentFrom, hb']
      obtain ⟨hmem, hbase, hall⟩ := ih b
      rw [hstep]
      refine ⟨?_, hbase, ?_⟩
      · rcases hmem with h | h
        · exact Or.inl h
        · exact Or.inr (List.mem_cons_of_mem d h)
      · intro x hx
        rcases List.mem_cons.mp hx with h | h
        · -- not older than d: the running best never dropped below b, and b is
          -- not older than d
          subst h
          cases hc : pyStrLt (createdAtKey (mostRecentFrom b ds)) (createdAtKey x) with
          | false => rfl
          | true =>
            by_cases hbr : pyStrLt (createdAtKey b) (createdAtKey (mostRecentFrom b ds)) = true
            · have := pyStrLt_trans _ _ _ hbr hc
              rw [this] at hb'
              exact absurd hb' (by simp)
            · have hbr' : pyStrLt (createdAtKey b) (createdAtKey (mostRecentFrom b ds)) = false := by
                cases h : pyStrLt (createdAtKey b) (createdAtKey (mostRecentFrom b ds)) with
                | false => rfl
                | true => exact absurd h hbr
              have heq := pyStrLt_connex _ _ hbase hbr'
              rw [heq] at hc
              rw [hc] at hb'
              exact absurd hb' (by simp)
        · exact hall x h

/-- `mostRecent` returns a member of the list, and no member is strictly more
recent than it. -/
theorem mostRecent_spec (docs : List TransferDoc) (d : TransferDoc)
    (h : mostRecent docs = some d) :
    d ∈ docs ∧ ∀ x ∈ docs, pyStrLt (createdAtKey d) (createdAtKey x) = false := by
  cases docs with
  | nil => simp [mostRecent] at h
  | cons hd tl =>
    simp only [mostRecent, Option.some.injEq] at h
    obtain ⟨hmem, hbase, hall⟩ := mostRecentFrom_spec tl hd
    subst h
    constructor
    · rcases hmem with h | h
      · rw [h]; exact List.mem_cons_self hd tl
      · exact List.mem_cons_of_mem hd h
    · intro x hx
      rcases List.mem_cons.mp hx with h | h
      · rw [h]; exact hbase
      · exact hall x h

/-- The code's nested unwrapping equals two applications of the one-level
unwrap: the second inner unwrap fires exactly when the first one did and
produced another dict with a `message` key. -/
theorem unwrapError_eq_two_unwraps (d : JsonObj) :
    unwrapError d = unwrapOnce (unwrapOnce (jgetD d "error" (.obj []))) := by
  cases he : jgetD d "error" (.obj []) with
  | obj fields =>
    cases hm : jget fields "message" with
    | none => simp [unwrapError, unwrapOnce, he, hm]
    | some m =>
      cases m with
      | null => simp [unwrapError, unwrapOnce, he, hm]
      | bool b => simp [unwrapError, unwrapOnce, he, hm]
      | num q => simp [unwrapError, unwrapOnce, he, hm]
      | str s => simp [unwrapError, unwrapOnce, he, hm]
      | arr items => simp [unwrapError, unwrapOnce, he, hm]
      | obj fields2 =>
        cases hm2 : jget fields2 "message" with
        | none => simp [unwrapError, unwrapOnce, he, hm, hm2]
        | some m2 => simp [unwrapError, unwrapOnce, he, hm, hm2]
  | null => simp [unwrapError, unwrapOnce, he]
  | bool b => simp [unwrapError, unwrapOnce, he]
  | num q => simp [unwrapError, unwrapOnce, he]
  | str s => simp [unwrapError, unwrapOnce, he]
  | arr items => simp [unwrapError, unwrapOnce, he]

/-- The id-number checker answers `None` for every query and every store
response: the scan only ever sees the envelope's keys or the error set's
element, so its filter keeps nothing, and a raised exception is caught. -/
theorem check_by_id_always_none (idNumber : String)
    (listed : ListDocumentsResult) :
    check_existing_transfer_by_id_number idNumber listed = none := by
  unfold check_existing_transfer_by_id_number
  by_cases h : idNumber = ""
  · simp [h]
  · rw [if_neg h]
    cases listed <;> rfl

/-- The contact-number checker answers `None` for every query and every
store response. -/
theorem check_by_contact_always_none (contactNumber : String)
    (listed : ListDocumentsResult) :
    check_existing_transfer_by_contact_number contactNumber listed = none := by
  unfold check_existing_transfer_by_contact_number
  by_cases h : contactNumber = ""
  · simp [h]
  · rw [if_neg h]
    cases listed <;> rfl

/-- Duplicate detection as a whole never matches any stored record. -/
theorem check_existing_always_none (i c : Option String)
    (listed : ListDocumentsResult) :
    check_existing_transfer i c listed = none := by
  unfold check_existing_transfer
  cases hti : truthyStr i <;> cases htc : truthyStr c <;>
    simp [check_by_id_always_none, check_by_contact_always_none]

/-- C1: at a submission whose contact number matches a stored transfer after
normalization, the program never raises the 409 duplicate error: the
duplicate scan iterates the response envelope's keys and finds nothing, and
the flow then fails with the 500 storage error because the endpoint calls
`store_transfer_request` with its required arguments missing — zero writes,
wrong error.  The last conjunct shows every transfer submission, duplicate
or not, ends the same way. -/
theorem C1_duplicate_path_eval :
    create_transfer dupCustomer dupAgent
        (ListDocumentsResult.envelope 1 [priorDoc])
      = (TransferResult.storageError 500 storeCallTypeError, 0)
    ∧ check_existing_transfer dupCustomer.id_number
        (some dupCustomer.contact_number)
        (ListDocumentsResult.envelope 1 [priorDoc]) = none
    ∧ normalizeContact (dget priorDoc "contact_number" "")
      = normalizeContact dupCustomer.contact_number
    ∧ (∀ (customer : CustomerInfo) (agent : AgentInfo)
          (listed : ListDocumentsResult),
        create_transfer customer agent listed
          = (TransferResult.storageError 500 storeCallTypeError, 0)) :=
  ⟨rfl, rfl, rfl, fun customer agent listed => by
    simp [create_transfer, check_existing_always_none]⟩

/-- C2: the Duplicate Detector never returns a stored record.  Queried with
the spec's own example `"940405-4800-086"` against a store whose envelope
lists the document stored as `"9404054800086"`, it answers `None` — even
though the (dead) client-side filter's normalization would have matched, as
the second conjunct shows.  The third conjunct generalizes: every query
against every store response answers `None`. -/
theorem C2_detector_dead_eval :
    check_existing_transfer (some "940405-4800-086") none
        (ListDocumentsResult.envelope 1 [doc940]) = none
    ∧ normalizeId (dget doc940 "id_number" "") = normalizeId "940405-4800-086"
    ∧ (∀ (idn cn : Option String) (listed : ListDocumentsResult),
        check_existing_transfer idn cn listed = none) :=
  ⟨rfl, rfl, fun idn cn listed => check_existing_always_none idn cn listed⟩

/-- C3 counterexample: when premium/excess sit both at top level and inside
the `data` array, the code returns the array values (2 and 3), not the
top-level ones the claim's priority order picks (1); and a premium only
inside a `data` object is never found (the code yields 0 where the claim's
order yields 7). -/
theorem C3_priority_counterexample :
    parseQuoteResponse quoteBothLocations = .success 2 3 none
    ∧ specExtractField quoteBothLocations "premium" = Json.num 1
    ∧ (2 : ℚ) ≠ 1
    ∧ parseQuoteResponse quoteDataObject = .success 0 0 none
    ∧ specExtractField quoteDataObject "premium" = Json.num 7
    ∧ (0 : ℚ) ≠ 7 :=
  ⟨rfl, rfl, by norm_num, rfl, rfl, by norm_num⟩

/-- C3 (amended): the extraction probes the first element of a top-level
`data` array first — a value found there is the one returned — and only when
that probe yields nothing does it read the top level, defaulting to 0; a
`data` object is never probed; a truthy top-level `id` is attached to the
result. -/
theorem C3_array_first_extraction (d : JsonObj) (key : String) :
    (∀ fields rest v,
        jget d "data" = some (.arr (.obj fields :: rest)) →
        denull (jget fields key) = some v → extractField d key = v)
    ∧ (dataArrayField d key = none →
        extractField d key = (denull (jget d key)).getD (Json.num 0))
    ∧ (∀ j, jget d "id" = some j → j.truthy = true → quoteIdField d = some j) := by
  refine ⟨?_, ?_, ?_⟩
  · intro fields rest v hdata hv
    simp [extractField, dataArrayField, hdata, hv]
  · intro harr
    simp [extractField, harr]
  · intro j hj ht
    simp [quoteIdField, hj, ht]

/-- C3 witness: the spec's worked example, extracted through the
array-first rule. -/
theorem C3_array_first_witness :
    extractField quoteSpecExample "premium" = Json.num 1240.46
    ∧ parseQuoteResponse quoteSpecExample
      = .success 1240.46 6200 (some (.str "abc123")) :=
  ⟨(C3_array_first_extraction quoteSpecExample "premium").1
      [("premium", Json.num 1240.46), ("excess", Json.num 6200)] []
      (Json.num 1240.46) rfl rfl,
   rfl⟩

/-- C4: any upstream response whose own success flag is falsy or whose
embedded `http_code` differs from 200 is classified as the 502 upstream
rejection, carrying `d.get("error", {})` unwrapped through up to two nested
`message` levels. -/
theorem C4_rejection_unwrap :
    ∀ d : JsonObj,
      (jgetD d "success" (.bool true)).truthy = false ∨
        isNum200 (jgetD d "http_code" (.num 200)) = false →
      parseQuoteResponse d
        = .apiError 502 (unwrapOnce (unwrapOnce (jgetD d "error" (.obj [])))) := by
  intro d h
  have hrej : isRejected d = true := by
    unfold isRejected
    rcases h with h | h <;> simp [h]
  simp [parseQuoteResponse, hrej, unwrapError_eq_two_unwraps]

/-- C4 witness: the spec's worked example — the surfaced message is exactly
`"bad vehicle"`. -/
theorem C4_rejection_witness :
    ((jgetD quoteRejected "success" (.bool true)).truthy = false ∨
      isNum200 (jgetD quoteRejected "http_code" (.num 200)) = false)
    ∧ parseQuoteResponse quoteRejected
      = .apiError 502 (Json.str "bad vehicle") :=
  ⟨Or.inl rfl, C4_rejection_unwrap quoteRejected (Or.inl rfl)⟩

/-- C6 counterexample: a top-level negative premium is passed through to the
caller unchanged — the returned premium is below zero. -/
theorem C6_negative_counterexample :
    parseQuoteResponse quoteNegative = .success (-1) 0 none
    ∧ ((-1 : ℚ) < 0) :=
  ⟨rfl, by norm_num⟩

/-- C6 (amended): a successfully parsed quote always carries definite
(never-null) premium and excess values, and a value missing from both
recognized locations becomes exactly 0 — but nothing clamps a negative
upstream value. -/
theorem C6_missing_defaults_to_zero :
    ∀ (d : JsonObj) (p e : ℚ) (qid : Option Json),
      parseQuoteResponse d = .success p e qid →
      (dataArrayField d "premium" = none → denull (jget d "premium") = none →
        p = 0)
      ∧ (dataArrayField d "excess" = none → denull (jget d "excess") = none →
        e = 0) := by
  intro d p e qid h
  cases hr : isRejected d with
  | true => simp [parseQuoteResponse, hr] at h
  | false =>
    simp only [parseQuoteResponse, hr, Bool.false_eq_true, if_false] at h
    constructor
    · intro h1 h2
      have hext : extractField d "premium" = Json.num 0 := by
        simp [extractField, h1, h2]
      rw [hext] at h
      cases hex : pyFloat (extractField d "excess") with
      | none => rw [hex] at h; simp [pyFloat] at h
      | some e' =>
        rw [hex] at h
        simp only [pyFloat, QuoteResult.success.injEq] at h
        exact h.1.symm
    · intro h1 h2
      have hext : extractField d "excess" = Json.num 0 := by
        simp [extractField, h1, h2]
      rw [hext] at h
      cases hpx : pyFloat (extractField d "premium") with
      | none => rw [hpx] at h; simp [pyFloat] at h
      | some p' =>
        rw [hpx] at h
        simp only [pyFloat, QuoteResult.success.injEq] at h
        exact h.2.1.symm

/-- C6 witness: a response with neither premium nor excess anywhere yields
the definite values 0 and 0. -/
theorem C6_missing_defaults_witness :
    parseQuoteResponse [] = .success 0 0 none ∧ (0 : ℚ) = 0 :=
  ⟨rfl, (C6_missing_defaults_to_zero [] 0 0 none rfl).1 rfl rfl⟩

/-- C7 counterexample: a template-rendering failure does not make the send
return false — the fallback body is sent and the send succeeds, against the
claim's "any failure anywhere in the email path causes false". -/
theorem C7_render_failure_counterexample :
    renderFailEnv.render = Except.error "TemplateNotFound"
    ∧ send_email renderFailEnv (some (.list ["admin@surestrat.co.za"]))
        none none "quote_notification.html" = true :=
  ⟨rfl, rfl⟩

/-- C7 (amended): every failure past rendering — missing SMTP server or
credentials, a connection, login or send exception — makes `send_email`
return false; no exception escapes to the caller (the outermost handler
leaves the function total into `Bool`). -/
theorem C7_failures_return_false :
    ∀ (env : EmailEnv) (r cc bcc : Option Recipients) (t : String),
      (env.smtp_server = none ∨ env.smtp_username = none ∨
        env.smtp_password = none ∨ (∃ e, env.connect = .error e) ∨
        (∃ e, env.login = .error e) ∨ (∃ e, env.send = .error e)) →
      send_email env r cc bcc t = false := by
  rintro ⟨srv, usr, pwd, rnd, con, log, snd⟩ r cc bcc t h
  simp only [send_email, sendEmailBody]
  by_cases hemp : (parse_recipients r).isEmpty
  · simp [hemp]
  · by_cases hsrv : truthyStr srv = false
    · simp [hemp, hsrv]
    · cases usr <;> cases pwd <;> cases con <;> cases log <;> cases snd <;>
        simp_all [truthyStr]

/-- C7 witness: a failing SMTP send returns false. -/
theorem C7_failures_witness :
    send_email sendFailEnv (some (.list ["admin@surestrat.co.za"])) none none
        "transfer_notification.html" = false :=
  C7_failures_return_false sendFailEnv
    (some (.list ["admin@surestrat.co.za"])) none none
    "transfer_notification.html"
    (Or.inr (Or.inr (Or.inr (Or.inr (Or.inr ⟨"connection reset", rfl⟩)))))

/-- C8 counterexample: an address appearing in both the to and cc fields is
handed to the SMTP send twice — no deduplication happens. -/
theorem C8_no_dedup_counterexample :
    allRecipients (some (.list ["admin@x.com"])) (some (.str "admin@x.com"))
        none
      = ["admin@x.com", "admin@x.com"]
    ∧ List.count "admin@x.com"
        (allRecipients (some (.list ["admin@x.com"]))
          (some (.str "admin@x.com")) none)
      = 2 :=
  ⟨rfl, rfl⟩

/-- C8 (amended): recipient fields given as lists or comma-separated strings
are normalized to trimmed, nonempty addresses — every parsed address is the
strip of some input fragment and is nonempty — but the combined send list is
a plain concatenation with no deduplication. -/
theorem C8_recipients_trimmed :
    ∀ (r : Option Recipients) (a : String), a ∈ parse_recipients r →
      (∃ e, a = pyStrip e) ∧ a ≠ "" := by
  intro r a h
  match r with
  | none => exact absurd h (List.not_mem_nil a)
  | some (.list items) =>
    simp only [parse_recipients] at h
    rcases List.mem_map.mp h with ⟨e, he, rfl⟩
    have hf := List.mem_filter.mp he
    have hb := hf.2
    rw [Bool.and_eq_true] at hb
    exact ⟨⟨e, rfl⟩, of_decide_eq_true hb.2⟩
  | some (.str s) =>
    by_cases h0 : s = ""
    · simp [parse_recipients, h0] at h
    · cases h1 : s.data.contains ',' with
      | true =>
        simp only [parse_recipients, h0, h1, if_false, if_true] at h
        have hf := List.mem_filter.mp h
        rcases List.mem_map.mp hf.1 with ⟨cs, _, rfl⟩
        exact ⟨⟨String.mk cs, rfl⟩, of_decide_eq_true hf.2⟩
      | false =>
        have h1' : ¬ (',' ∈ s.data) := by simpa using h1
        by_cases h2 : pyStrip s = ""
        · simp [parse_recipients, h0, h2] at h
          exact absurd h.1 h1'
        · simp only [parse_recipients, h0, h1, h2, if_false] at h
          rcases List.mem_singleton.mp h with rfl
          exact ⟨⟨s, rfl⟩, h2⟩

/-- C8 witness: a padded single-address string parses to its trimmed,
nonempty form. -/
theorem C8_recipients_witness :
    "a@x.com" ∈ parse_recipients (some (.str " a@x.com ")) ∧
      ((∃ e, "a@x.com" = pyStrip e) ∧ "a@x.com" ≠ "") :=
  ⟨by decide,
   C8_recipients_trimmed (some (.str " a@x.com ")) "a@x.com" (by decide)⟩

/-- C9: the duplicate check fails open — when listing or scanning the stored
transfers raises, the check answers `None` and the whole endpoint behaves
exactly as if the store reported no documents at all. -/
theorem C9_duplicate_check_fails_open :
    ∀ (customer : CustomerInfo) (agent : AgentInfo) (e : String),
      check_existing_transfer customer.id_number (some customer.contact_number)
          (ListDocumentsResult.raised e) = none
      ∧ create_transfer customer agent (ListDocumentsResult.raised e)
        = create_transfer customer agent (ListDocumentsResult.envelope 0 []) := by
  intro customer agent e
  refine ⟨check_existing_always_none _ _ _, ?_⟩
  simp only [create_transfer, check_existing_always_none]

/-- C9 witness: a concrete storage outage leaves a transfer submission
producing the very outcome an empty store would. -/
theorem C9_fails_open_witness :
    create_transfer dupCustomer dupAgent
        (ListDocumentsResult.raised "503 service unavailable")
      = create_transfer dupCustomer dupAgent
        (ListDocumentsResult.envelope 0 []) :=
  (C9_duplicate_check_fails_open dupCustomer dupAgent
    "503 service unavailable").2

/-- C10: the transfer path never sends any payload — the payload
construction reads `agent_info.agent_email`, which the `AgentInfo` schema
does not carry, so `send_transfer_request` returns the error dict for every
validated transfer and the hardcoded `source = "SureStrat"` line is dead
code (as the last conjunct shows, it is on the dead `posted` arm).  The
quote path's halves hold: the outbound quote payload carries the literal
`"SureStrat"` whatever the caller sent, while the stored quote record keeps
the caller's original source. -/
theorem C10_transfer_send_never_posts :
    (∀ (customer : CustomerInfo) (agent : AgentInfo) (p : TransferPayload),
        send_transfer_request customer agent ≠ TransferSendOutcome.posted p)
    ∧ send_transfer_request dupCustomer dupAgent
      = TransferSendOutcome.errorDict
          "Exception in send_transfer_request: 'AgentInfo' object has no attribute 'agent_email'"
    ∧ (∀ q : QuoteRequest, (send_quote_payload q).source = "SureStrat"
        ∧ (store_quote_data q).source = q.source)
    ∧ (send_transfer_payload dupCustomer "agent@surestrat.co.za" "JHB").source
      = "SureStrat" := by
  refine ⟨?_, rfl, ?_, rfl⟩
  · intro customer agent p h
    simp [send_transfer_request, agentEmailAttr] at h
  · intro q
    refine ⟨?_, rfl⟩
    simp [send_quote_payload]

end PineApi
